import Mathlib

/-!
Verification of the SOW criticality pipeline
(`train/feature_engineering.py`, `train/train_criticality_model.py`).

The Python sources are shallowly embedded: pure row computations become Lean
functions over `Int`/`ℚ`/`ℝ`, the mutable `SOWFeatureEngineering` /
`CriticalityClassifier` objects become explicit state records threaded through
each operation, pandas DataFrames passed by reference become slots in an
explicit heap, and raisable operations return `Except`.
-/

/-! ## Label Rule Engine (`SOWFeatureEngineering.create_criticality_label.classify`) -/

/-- The four criticality labels BAJO / MEDIO / ALTO / CRÍTICO. -/
inductive CritLabel where
  | bajo
  | medio
  | alto
  | critico
deriving DecidableEq, Repr, Inhabited

/-- Embedding of the row-wise `classify` closure in
`create_criticality_label` (feature_engineering.py lines 32-50):
an if / elif / elif / else chain over
`days = row['# Days before expiration']` and `workers = row['Active SOW workers']`. -/
def classify (days workers : Int) : CritLabel :=
  if days ≤ 30 ∧ workers > 0 then .critico
  else if (days ≤ 30 ∧ workers = 0) ∨ (31 ≤ days ∧ days ≤ 60 ∧ workers > 5) then .alto
  else if 31 ≤ days ∧ days ≤ 90 then .medio
  else .bajo

/-- Modelled from the spec's words (§4.1 rule table, first match wins, in this
exact order), to be compared with `classify` from the source. -/
def classifySpecRule (days workers : Int) : CritLabel :=
  if days ≤ 30 ∧ workers > 0 then .critico
  else if (days ≤ 30 ∧ workers = 0) ∨ (31 ≤ days ∧ days ≤ 60 ∧ workers > 5) then .alto
  else if 31 ≤ days ∧ days ≤ 90 then .medio
  else .bajo

/-! ## Derived numeric features (`SOWFeatureEngineering.engineer_features`, lines 61-85) -/

/-- `df['is_expired'] = (df['days_to_expire'] < 0).astype(int)`. -/
def isExpiredInd (d : Int) : Int := if d < 0 then 1 else 0

/-- `df['is_critical_window'] = (df['days_to_expire'] <= 30).astype(int)`. -/
def isCriticalWindowInd (d : Int) : Int := if d ≤ 30 then 1 else 0

/-- `df['is_high_priority_window'] = ((df['days_to_expire'] > 30) & (df['days_to_expire'] <= 60)).astype(int)`. -/
def isHighPriorityWindowInd (d : Int) : Int := if 30 < d ∧ d ≤ 60 then 1 else 0

/-- `df['has_workers'] = (df['Active SOW workers'] > 0).astype(int)`. -/
def hasWorkersInd (w : Int) : Int := if w > 0 then 1 else 0

/-- `df['budget_normalized'] = df['Latest maximum budget'] / 1_000_000`. -/
def budgetNormalized (b : ℚ) : ℚ := b / 1000000

/-- `df['budget_per_worker'] = np.where(df['worker_count'] > 0, df['Latest maximum budget'] / df['worker_count'], 0)`. -/
def budgetPerWorker (b : ℚ) (w : Int) : ℚ := if w > 0 then b / (w : ℚ) else 0

/-- `np.log1p(x)`, i.e. the natural logarithm of `1 + x`. -/
noncomputable def log1p (x : ℝ) : ℝ := Real.log (1 + x)

/-- `df['risk_score'] = (30 - df['days_to_expire']) * df['has_workers'] * (1 + np.log1p(df['worker_count']))`. -/
noncomputable def riskScore (d w : Int) : ℝ :=
  (30 - (d : ℝ)) * ((hasWorkersInd w : Int) : ℝ) * (1 + log1p (w : ℝ))

/-- Modelled from the spec's words (§4.2 feature table, row 9):
`budget / worker_count if worker_count > 0 else 0`; compared with
`budgetPerWorker` from the source. -/
def budgetPerWorkerSpec (b : ℚ) (w : Int) : ℚ := if w > 0 then b / (w : ℚ) else 0

/-- Modelled from the spec's words (§4.2 feature table, row 10):
`(30 − days_to_expire) × has_workers × (1 + ln(1 + worker_count))` with
`has_workers = 1 if worker_count > 0 else 0`; compared with `riskScore`
from the source. -/
noncomputable def riskScoreSpec (d w : Int) : ℝ :=
  (30 - (d : ℝ)) * (if w > 0 then (1 : ℝ) else 0) * (1 + Real.log (1 + (w : ℝ)))

/-! ## Raw records and engineered rows -/

/-- One raw SOW record, restricted to the columns the training pipeline reads:
`'# Days before expiration'`, `'Active SOW workers'`, `'Latest maximum budget'`,
`'supplier'`, `'Business Unit'`, `'Primary LOB'`, `'currency'`. -/
structure SowRow where
  daysBeforeExpiration : Int
  activeSowWorkers : Int
  latestMaximumBudget : ℚ
  supplier : String
  businessUnit : String
  primaryLob : String
  currency : String
deriving DecidableEq, Repr, Inhabited

/-- The derived feature columns `engineer_features` adds to the frame, for one
row, in the order of `get_feature_columns`. -/
structure FeatRow where
  daysToExpire : Int
  isExpired : Int
  isCriticalWindow : Int
  isHighPriorityWindow : Int
  hasWorkers : Int
  workerCount : Int
  workerCriticalityScore : Int
  budgetNormalized : ℚ
  budgetPerWorker : ℚ
  riskScore : ℝ
  supplierEncoded : Nat
  businessUnitEncoded : Nat
  primaryLobEncoded : Nat
  currencyEncoded : Nat

/-- The numeric and encoded feature values `engineer_features` computes for one
row (feature_engineering.py lines 61-95), given the four integer codes produced
by the categorical label encoders. -/
noncomputable def mkFeatRow (row : SowRow) (se be pe ce : Nat) : FeatRow :=
  { daysToExpire := row.daysBeforeExpiration
    isExpired := isExpiredInd row.daysBeforeExpiration
    isCriticalWindow := isCriticalWindowInd row.daysBeforeExpiration
    isHighPriorityWindow := isHighPriorityWindowInd row.daysBeforeExpiration
    hasWorkers := hasWorkersInd row.activeSowWorkers
    workerCount := row.activeSowWorkers
    workerCriticalityScore := row.activeSowWorkers * isCriticalWindowInd row.daysBeforeExpiration
    budgetNormalized := budgetNormalized row.latestMaximumBudget
    budgetPerWorker := budgetPerWorker row.latestMaximumBudget row.activeSowWorkers
    riskScore := riskScore row.daysBeforeExpiration row.activeSowWorkers
    supplierEncoded := se
    businessUnitEncoded := be
    primaryLobEncoded := pe
    currencyEncoded := ce }

/-! ## Label encoders (`sklearn.preprocessing.LabelEncoder` as used in lines 87-95) -/

/-- Code-point comparison of character lists, the order `np.unique` sorts
string arrays by. -/
def strLtAux : List Char → List Char → Bool
  | [], [] => false
  | [], _ :: _ => true
  | _ :: _, [] => false
  | a :: as, b :: bs =>
    if a.val < b.val then true
    else if b.val < a.val then false
    else strLtAux as bs

/-- Strict code-point order on strings. -/
def strLt (a b : String) : Bool := strLtAux a.data b.data

/-- `LabelEncoder.fit`: `classes_` is the sorted list of distinct values
(`np.unique`). -/
def leClasses (values : List String) : List String :=
  List.insertionSort (fun a b => strLt b a = false) values.dedup

/-- Position of a value in a fitted encoder's `classes_` array; `none` models
the `ValueError` `LabelEncoder.transform` raises on a label unseen at fit
time. -/
def leIndexOf : List String → String → Option Nat
  | [], _ => none
  | c :: cs, v => if c = v then some 0 else (leIndexOf cs v).map (fun i => i + 1)

/-- Errors `engineer_features` can raise: `LabelEncoder.transform`'s
`ValueError: y contains previously unseen labels`. -/
inductive EngErr where
  | unseenLabel (col : String) (v : String)
deriving DecidableEq, Repr

/-- `LabelEncoder.transform` over a column of values: the integer code of each
value, or the error for the first value missing from `classes_`. -/
def transformCol (col : String) (cs : List String) : List String → Except EngErr (List Nat)
  | [] => .ok []
  | v :: vs =>
    match leIndexOf cs v with
    | none => .error (.unseenLabel col v)
    | some i =>
      match transformCol col cs vs with
      | .error e => .error e
      | .ok is => .ok (i :: is)

/-! ## Feature Engineer state (`SOWFeatureEngineering`) -/

/-- `StandardScaler` statistics after a fit: per-column mean and (population)
variance of the fitted matrix, plus the fitted sample count. -/
structure ScalerStats where
  nSamples : Nat
  mean : Nat → ℝ
  variance : Nat → ℝ

/-- Mean of column `j` of a row-major matrix. -/
noncomputable def colMean (X : List (List ℝ)) (j : Nat) : ℝ :=
  (X.map (fun r => r.getD j 0)).sum / (X.length : ℝ)

/-- Population variance of column `j` of a row-major matrix. -/
noncomputable def colVar (X : List (List ℝ)) (j : Nat) : ℝ :=
  (X.map (fun r => (r.getD j 0 - colMean X j) ^ 2)).sum / (X.length : ℝ)

/-- `StandardScaler.fit`: record the per-column mean and variance of `X`. -/
noncomputable def scalerFit (X : List (List ℝ)) : ScalerStats :=
  { nSamples := X.length, mean := colMean X, variance := colVar X }

/-- `sklearn`'s `_handle_zeros_in_scale`: a zero-variance column gets scale 1,
otherwise the standard deviation. -/
noncomputable def scalerScaleOf (v : ℝ) : ℝ := if v = 0 then 1 else Real.sqrt v

/-- The mutable state of one `SOWFeatureEngineering` instance:
`self.label_encoders` (a dict from column name to fitted encoder) and
`self.scaler` (`none` while the `StandardScaler` is unfitted). -/
structure FEState where
  labelEncoders : List (String × List String)
  scaler : Option ScalerStats

/-- `SOWFeatureEngineering.__init__`: empty encoder dict, unfitted scaler. -/
def fe0 : FEState := { labelEncoders := [], scaler := none }

/-- Dict lookup in `self.label_encoders`. -/
def lookupEncoder (encs : List (String × List String)) (col : String) : Option (List String) :=
  (encs.find? (fun p => decide (p.1 = col))).map (fun p => p.2)

/-- One iteration of the `for col in categorical_cols` loop (lines 90-95):
`if col not in self.label_encoders`, fit a fresh encoder on this column and
encode with it (`fit_transform`); else encode with the stored encoder
(`transform`), which raises on unseen values. Returns the codes (or the
exception) together with the updated instance state. -/
def encodeCol (st : FEState) (col : String) (values : List String) :
    Except EngErr (List Nat) × FEState :=
  match lookupEncoder st.labelEncoders col with
  | none =>
    let cs := leClasses values
    (.ok (values.map (fun v => (leIndexOf cs v).getD 0)),
     { st with labelEncoders := st.labelEncoders ++ [(col, cs)] })
  | some cs => (transformCol col cs values, st)

/-- `SOWFeatureEngineering.engineer_features` (lines 55-97) applied to the rows
of a frame: derived numeric columns plus the four encoded categorical columns,
processed in the order `['supplier', 'Business Unit', 'Primary LOB',
'currency']`, threading the mutable encoder state; the state reflects the
columns processed before a raise. -/
noncomputable def engineerFeatures (st : FEState) (rows : List SowRow) :
    Except EngErr (List FeatRow) × FEState :=
  match encodeCol st "supplier" (rows.map (fun r => r.supplier)) with
  | (.error e, st1) => (.error e, st1)
  | (.ok sup, st1) =>
    match encodeCol st1 "Business Unit" (rows.map (fun r => r.businessUnit)) with
    | (.error e, st2) => (.error e, st2)
    | (.ok bu, st2) =>
      match encodeCol st2 "Primary LOB" (rows.map (fun r => r.primaryLob)) with
      | (.error e, st3) => (.error e, st3)
      | (.ok lob, st3) =>
        match encodeCol st3 "currency" (rows.map (fun r => r.currency)) with
        | (.error e, st4) => (.error e, st4)
        | (.ok cur, st4) =>
          (.ok ((List.range rows.length).map (fun i =>
            mkFeatRow (rows.getD i default) (sup.getD i 0) (bu.getD i 0)
              (lob.getD i 0) (cur.getD i 0))), st4)

/-! ## DataFrames as heap slots -/

/-- A pandas frame as the pipeline sees it: the raw rows, plus the
`'Criticality'` column once `create_criticality_label` has added it, plus the
derived feature columns once `engineer_features` has been run on it. -/
structure PandasDF where
  rows : List SowRow
  criticality : Option (List CritLabel)
  feats : Option (List FeatRow)

instance : Inhabited PandasDF := ⟨⟨[], none, none⟩⟩

/-- Python object heap for frames: a slot per live frame, addressed by index. -/
abbrev Heap := List PandasDF

/-- Read the frame at address `r`. -/
def heapGet (h : Heap) (r : Nat) : PandasDF := List.getD h r default

/-- Length of the underlying slot list. -/
def heapLen (h : Heap) : Nat := List.length h

/-- `classify` applied to one row (`df.apply(classify, axis=1)`). -/
def rowClassify (row : SowRow) : CritLabel :=
  classify row.daysBeforeExpiration row.activeSowWorkers

/-- `SOWFeatureEngineering.create_criticality_label` (lines 22-53):
`df['Criticality'] = df.apply(classify, axis=1); return df` — writes the new
column into the caller's frame object and returns the same reference. -/
def createCriticalityLabel (h : Heap) (r : Nat) : Heap × Nat :=
  let df := heapGet h r
  (List.set h r { df with criticality := some (df.rows.map rowClassify) }, r)

/-- `engineer_features` at the object level: `df = df.copy()` allocates a fresh
frame (carrying over all existing columns), all writes go to the copy, and the
copy's reference is returned; the caller's frame is untouched. -/
noncomputable def engineerFeaturesRef (st : FEState) (h : Heap) (r : Nat) :
    Except EngErr Nat × FEState × Heap :=
  let df := heapGet h r
  match engineerFeatures st df.rows with
  | (.error e, st1) => (.error e, st1, h)
  | (.ok fr, st1) => (.ok (heapLen h), st1, h ++ [{ df with feats := some fr }])

/-- `get_feature_columns` (lines 99-118): the 14 model features in order. -/
def featureCols : List String :=
  ["days_to_expire", "is_expired", "is_critical_window", "is_high_priority_window",
   "has_workers", "worker_count", "worker_criticality_score", "budget_normalized",
   "budget_per_worker", "risk_score", "supplier_encoded", "Business Unit_encoded",
   "Primary LOB_encoded", "currency_encoded"]

/-- `X = df[feature_cols]` for one engineered row: its 14 feature values in the
order of `featureCols`. -/
noncomputable def featVector (f : FeatRow) : List ℝ :=
  [(f.daysToExpire : ℝ), (f.isExpired : ℝ), (f.isCriticalWindow : ℝ),
   (f.isHighPriorityWindow : ℝ), (f.hasWorkers : ℝ), (f.workerCount : ℝ),
   (f.workerCriticalityScore : ℝ), (f.budgetNormalized : ℝ),
   (f.budgetPerWorker : ℝ), f.riskScore, (f.supplierEncoded : ℝ),
   (f.businessUnitEncoded : ℝ), (f.primaryLobEncoded : ℝ), (f.currencyEncoded : ℝ)]

/-- The transform half of `StandardScaler.fit_transform`: center and scale
every column with the fitted statistics. -/
noncomputable def scalerTransform (s : ScalerStats) (X : List (List ℝ)) : List (List ℝ) :=
  X.map (fun row => (List.range featureCols.length).map
    (fun j => (row.getD j 0 - s.mean j) / scalerScaleOf (s.variance j)))

/-- The raw (pre-scaling) feature matrix `prepare_for_training` assembles from
the frame at `r`: the engineered rows' `featVector`s (empty if
`engineer_features` would raise first). -/
noncomputable def prepRawX (st : FEState) (h : Heap) (r : Nat) : List (List ℝ) :=
  match engineerFeatures st (heapGet h r).rows with
  | (.ok fr, _) => fr.map featVector
  | (.error _, _) => []

/-- `SOWFeatureEngineering.prepare_for_training` (lines 120-139):
label the caller's frame in place, engineer features into a copy, select
`X = df[feature_cols]` and `y = df['Criticality']` from the copy, and
`X_scaled = self.scaler.fit_transform(X)` — the scaler is (re)fitted on this
call's matrix, whatever state it was in. Returns `(X_scaled, y, df)` plus the
updated instance state and heap. -/
noncomputable def prepareForTraining (st : FEState) (h : Heap) (r : Nat) :
    Except EngErr (List (List ℝ) × List CritLabel × Nat) × FEState × Heap :=
  let p := createCriticalityLabel h r
  match engineerFeaturesRef st p.1 p.2 with
  | (.error e, st1, h2) => (.error e, st1, h2)
  | (.ok r2, st1, h2) =>
    let df2 := heapGet h2 r2
    let X := (df2.feats.getD []).map featVector
    let y := df2.criticality.getD []
    let stats := scalerFit X
    (.ok (scalerTransform stats X, y, r2), { st1 with scaler := some stats }, h2)

/-! ## Stratified train/test split (train_criticality_model.py lines 232-240) -/

/-- `ceil(0.2 * n)` in exact arithmetic: the test-set size
`train_test_split(test_size=0.2)` computes. -/
def splitTestCount (n : Nat) : Nat := (n + 4) / 5

/-- `floor(0.8 * n)` in exact arithmetic: the train-set size. -/
def splitTrainCount (n : Nat) : Nat := 4 * n / 5

/-- The `ValueError`s `StratifiedShuffleSplit._iter_indices` can raise, in the
order it checks for them: a class with fewer than 2 members, then
`n_train < n_classes`, then `n_test < n_classes`. -/
inductive SplitErr where
  | leastPopulatedClass
  | trainSizeTooSmall
  | testSizeTooSmall
deriving DecidableEq, Repr

/-- The validation `train_test_split(X, y, test_size=0.2, stratify=y)` performs
before producing a stratified split (`sklearn.model_selection._split`,
`StratifiedShuffleSplit._iter_indices`): it either raises one of the three
`ValueError`s or proceeds with the stratified (never a degraded) split. -/
def stratifiedSplitCheck (y : List CritLabel) : Except SplitErr Unit :=
  let classes := y.dedup
  if classes.any (fun c => y.count c < 2) then .error .leastPopulatedClass
  else if splitTrainCount y.length < classes.length then .error .trainSizeTooSmall
  else if splitTestCount y.length < classes.length then .error .testSizeTooSmall
  else .ok ()

/-! ## Classifier Trainer (`CriticalityClassifier`) -/

/-- The parts of a fitted sklearn estimator the trainer reads back:
`feature_names_in_` (absent when the estimator was fitted without column
names) and `feature_importances_`. -/
structure SkModel where
  featureNamesIn : Option (List String)
  featureImportances : List ℚ
deriving DecidableEq, Repr

/-- `self.metrics` once `_evaluate` has filled it. -/
structure ClfMetrics where
  trainAccuracy : ℚ
  testAccuracy : ℚ
  trainSize : Nat
  testSize : Nat
deriving DecidableEq, Repr

/-- The mutable state of one `CriticalityClassifier` instance (`__init__`,
lines 28-33): `model_type`, and `model` / `feature_engineer` /
`training_date` still `None`, `metrics` still empty, until assigned. -/
structure CriticalityClassifier where
  modelType : String
  model : Option SkModel
  featureEngineer : Option FEState
  trainingDate : Option String
  metrics : Option ClfMetrics

/-- The `model_package` dict `save_model` persists with `joblib.dump`
(lines 151-157): exactly the keys `model`, `model_type`, `training_date`,
`metrics`, `feature_names`. -/
structure ModelPackage where
  model : Option SkModel
  modelType : String
  trainingDate : Option String
  metrics : Option ClfMetrics
  featureNames : Option (List String)
deriving DecidableEq, Repr

/-- `save_model` raises nothing of its own: there is no trained-state check. -/
inductive SaveErr deriving DecidableEq, Repr

/-- `CriticalityClassifier.save_model` (lines 144-164): build the package from
the current attributes — `feature_names` is `self.model.feature_names_in_`
when that attribute exists (`hasattr` is false for `None`) — and dump it.
Always succeeds. -/
def saveModel (c : CriticalityClassifier) : Except SaveErr ModelPackage :=
  .ok { model := c.model
        modelType := c.modelType
        trainingDate := c.trainingDate
        metrics := c.metrics
        featureNames :=
          match c.model with
          | some m => m.featureNamesIn
          | none => none }

/-- The exception `load_model` can raise: the `KeyError` from indexing
`classifier.metrics['test_accuracy']` at line 179 when the artifact's metrics
dict is empty (an artifact saved before training). -/
inductive LoadErr where
  | keyError (key : String)
deriving DecidableEq, Repr

/-- `CriticalityClassifier.load_model` (lines 166-181): construct a fresh
instance with the package's `model_type`, then restore `model`,
`training_date`, `metrics` from the package; `feature_engineer` is never
assigned and keeps its `__init__` value `None`. Before returning, line 179
prints `classifier.metrics['test_accuracy']`, so an artifact whose metrics
dict is empty raises `KeyError('test_accuracy')` instead of producing a
trainer. -/
def loadModel (p : ModelPackage) : Except LoadErr CriticalityClassifier :=
  match p.metrics with
  | none => .error (.keyError "test_accuracy")
  | some m =>
    .ok { modelType := p.modelType
          model := p.model
          featureEngineer := none
          trainingDate := p.trainingDate
          metrics := some m }

/-! ## Feature importance display (`_print_feature_importance`, lines 118-130) -/

/-- The key order `np.argsort` sorts index `i` before index `j` by on a score
array `xs` (ascending scores, equal scores kept in original position — the
stable reading of argsort). -/
def argsortRel (xs : List ℚ) (i j : Nat) : Prop :=
  xs.getD i 0 < xs.getD j 0 ∨ (xs.getD i 0 = xs.getD j 0 ∧ i ≤ j)

instance argsortRelDec (xs : List ℚ) : DecidableRel (argsortRel xs) := fun i j => by
  unfold argsortRel
  exact inferInstance

/-- `np.argsort(importances)`: the indices of `xs` in ascending score order. -/
def argsortStable (xs : List ℚ) : List Nat :=
  List.insertionSort (argsortRel xs) (List.range xs.length)

/-- `np.argsort(importances)[::-1][:top_n]` with the call's default
`top_n=10`: indices in descending score order, truncated to the top 10. -/
def importanceOrder (xs : List ℚ) : List Nat :=
  (argsortStable xs).reverse.take 10

/-- The `(feature_names[idx], importances[idx])` pairs
`_print_feature_importance` displays, in display order. -/
def featureImportanceRanking (names : List String) (xs : List ℚ) : List (String × ℚ) :=
  (importanceOrder xs).map (fun i => (names.getD i "", xs.getD i 0))

/-! ## Helper lemmas -/

theorem heapGet_default (h : Heap) (r : Nat) (hr : heapLen h ≤ r) :
    heapGet h r = default :=
  List.getD_eq_default _ _ hr

theorem heapGet_set_self (h : Heap) (r : Nat) (df : PandasDF) (hr : r < heapLen h) :
    heapGet (List.set h r df) r = df := by
  induction h generalizing r with
  | nil => simp [heapLen] at hr
  | cons a t ih =>
    cases r with
    | zero => rfl
    | succ n =>
      have hn : n < heapLen t := Nat.lt_of_succ_lt_succ hr
      simpa [heapGet, List.set] using ih n hn

theorem heapGet_set_ne (h : Heap) (r : Nat) (df : PandasDF) (j : Nat) (hj : j ≠ r) :
    heapGet (List.set h r df) j = heapGet h j := by
  induction h generalizing r j with
  | nil => rfl
  | cons a t ih =>
    cases r with
    | zero =>
      cases j with
      | zero => exact absurd rfl hj
      | succ m => rfl
    | succ n =>
      cases j with
      | zero => rfl
      | succ m =>
        have hm : m ≠ n := fun hc => hj (by rw [hc])
        simpa [heapGet, List.set] using ih n m hm

theorem heapGet_append_left (h h' : Heap) (r : Nat) (hr : r < heapLen h) :
    heapGet (h ++ h') r = heapGet h r := by
  unfold heapGet
  exact List.getD_append h h' default r hr

theorem heapGet_concat_self (h : Heap) (df : PandasDF) :
    heapGet (h ++ [df]) (heapLen h) = df := by
  unfold heapGet heapLen
  rw [List.getD_append_right h [df] default h.length (Nat.le_refl _)]
  simp

theorem encodeCol_scaler (st : FEState) (col : String) (values : List String) :
    (encodeCol st col values).2.scaler = st.scaler := by
  unfold encodeCol
  cases lookupEncoder st.labelEncoders col <;> rfl

theorem engineerFeatures_scaler (st : FEState) (rows : List SowRow) :
    (engineerFeatures st rows).2.scaler = st.scaler := by
  unfold engineerFeatures
  rcases h1 : encodeCol st "supplier" (rows.map fun r => r.supplier) with ⟨E1, st1⟩
  have hs1 : st1.scaler = st.scaler := by
    have h := encodeCol_scaler st "supplier" (rows.map fun r => r.supplier)
    rw [h1] at h; exact h
  rw [h1]
  cases E1 with
  | error e => simpa using hs1
  | ok v1 =>
    dsimp only
    rcases h2 : encodeCol st1 "Business Unit" (rows.map fun r => r.businessUnit) with ⟨E2, st2⟩
    have hs2 : st2.scaler = st.scaler := by
      have h := encodeCol_scaler st1 "Business Unit" (rows.map fun r => r.businessUnit)
      rw [h2] at h; rw [h, hs1]
    rw [h2]
    cases E2 with
    | error e => simpa using hs2
    | ok v2 =>
      dsimp only
      rcases h3 : encodeCol st2 "Primary LOB" (rows.map fun r => r.primaryLob) with ⟨E3, st3⟩
      have hs3 : st3.scaler = st.scaler := by
        have h := encodeCol_scaler st2 "Primary LOB" (rows.map fun r => r.primaryLob)
        rw [h3] at h; rw [h, hs2]
      rw [h3]
      cases E3 with
      | error e => simpa using hs3
      | ok v3 =>
        dsimp only
        rcases h4 : encodeCol st3 "currency" (rows.map fun r => r.currency) with ⟨E4, st4⟩
        have hs4 : st4.scaler = st.scaler := by
          have h := encodeCol_scaler st3 "currency" (rows.map fun r => r.currency)
          rw [h4] at h; rw [h, hs3]
        rw [h4]
        cases E4 with
        | error e => simpa using hs4
        | ok v4 => simpa using hs4

theorem heapGet_set_default (h : Heap) (r : Nat) (df : PandasDF) (hle : heapLen h ≤ r) :
    heapGet (List.set h r df) r = default :=
  heapGet_default _ _ (by simpa [heapLen] using hle)

theorem createCriticalityLabel_rows (h : Heap) (r : Nat) :
    (heapGet (createCriticalityLabel h r).1 r).rows = (heapGet h r).rows := by
  by_cases hr : r < heapLen h
  · unfold createCriticalityLabel
    dsimp only
    rw [heapGet_set_self _ _ _ hr]
  · have hle : heapLen h ≤ r := Nat.le_of_not_lt hr
    unfold createCriticalityLabel
    dsimp only
    rw [heapGet_set_default h r _ hle, heapGet_default h r hle]

theorem optIsSome_map (f : Nat → Nat) (x : Option Nat) : (x.map f).isSome = x.isSome := by
  cases x <;> rfl

theorem exceptIsOk_ok {e : Type} {a : Type} (x : a) : (Except.ok x : Except e a).isOk = true := rfl

theorem exceptIsOk_error {e : Type} {a : Type} (err : e) :
    (Except.error err : Except e a).isOk = false := rfl

theorem leIndexOf_isSome_iff (cs : List String) (v : String) :
    (leIndexOf cs v).isSome = true ↔ v ∈ cs := by
  induction cs with
  | nil => simp [leIndexOf]
  | cons c cs ih =>
    by_cases hc : c = v
    · simp [leIndexOf, hc]
    · simp only [leIndexOf, if_neg hc, List.mem_cons]
      rw [optIsSome_map]
      rw [ih]
      constructor
      · exact fun hm => Or.inr hm
      · rintro (h | h)
        · exact absurd h.symm hc
        · exact h

theorem transformCol_ok_iff (col : String) (cs : List String) (values : List String) :
    (transformCol col cs values).isOk = true ↔ ∀ v ∈ values, v ∈ cs := by
  induction values with
  | nil => simp [transformCol, exceptIsOk_ok]
  | cons v vs ih =>
    simp only [List.mem_cons, forall_eq_or_imp]
    rw [← leIndexOf_isSome_iff, ← ih]
    cases hidx : leIndexOf cs v with
    | none => simp [transformCol, hidx, exceptIsOk_error]
    | some i =>
      cases hrest : transformCol col cs vs with
      | error e => simp [transformCol, hidx, hrest, exceptIsOk_error]
      | ok is => simp [transformCol, hidx, hrest, exceptIsOk_ok]

theorem prep_scaler_refit (st : FEState) (h : Heap) (r : Nat)
    (hok : (prepareForTraining st h r).1.isOk = true) :
    (prepareForTraining st h r).2.1.scaler = some (scalerFit (prepRawX st h r)) := by
  have hrows := createCriticalityLabel_rows h r
  rcases hE : engineerFeatures st (heapGet h r).rows with ⟨E, st'⟩
  have hE' : engineerFeatures st
      (heapGet (createCriticalityLabel h r).1 (createCriticalityLabel h r).2).rows = (E, st') := by
    show engineerFeatures st (heapGet (createCriticalityLabel h r).1 r).rows = (E, st')
    rw [hrows, hE]
  unfold prepareForTraining engineerFeaturesRef at hok ⊢
  dsimp only at hok ⊢
  rw [hE'] at hok ⊢
  cases E with
  | error e =>
    dsimp only at hok
    simp [exceptIsOk_error] at hok
  | ok fr =>
    dsimp only
    rw [heapGet_concat_self]
    unfold prepRawX
    rw [hE]
    dsimp only
    simp only [Option.getD_some]

instance argsortRelTotal (xs : List ℚ) : IsTotal Nat (argsortRel xs) := by
  constructor
  intro i j
  unfold argsortRel
  rcases lt_trichotomy (xs.getD i 0) (xs.getD j 0) with h | h | h
  · exact Or.inl (Or.inl h)
  · rcases Nat.le_total i j with hij | hij
    · exact Or.inl (Or.inr ⟨h, hij⟩)
    · exact Or.inr (Or.inr ⟨h.symm, hij⟩)
  · exact Or.inr (Or.inl h)

instance argsortRelTrans (xs : List ℚ) : IsTrans Nat (argsortRel xs) := by
  constructor
  intro a b c hab hbc
  unfold argsortRel at hab hbc ⊢
  rcases hab with h1 | ⟨h1, h1'⟩
  · rcases hbc with h2 | ⟨h2, _⟩
    · exact Or.inl (h1.trans h2)
    · exact Or.inl (h2 ▸ h1)
  · rcases hbc with h2 | ⟨h2, h2'⟩
    · exact Or.inl (h1 ▸ h2)
    · exact Or.inr ⟨h1.trans h2, h1'.trans h2'⟩

theorem importanceOrder_pairwise (xs : List ℚ) :
    List.Pairwise
      (fun i j => xs.getD j 0 < xs.getD i 0 ∨ (xs.getD i 0 = xs.getD j 0 ∧ j < i))
      (importanceOrder xs) := by
  have hsorted : List.Pairwise (argsortRel xs) (argsortStable xs) :=
    List.sorted_insertionSort (argsortRel xs) (List.range xs.length)
  have hnodup : (argsortStable xs).Nodup :=
    (List.perm_insertionSort (argsortRel xs) (List.range xs.length)).nodup_iff.mpr
      (List.nodup_range xs.length)
  have hrev : List.Pairwise (fun i j => argsortRel xs j i) (argsortStable xs).reverse :=
    List.pairwise_reverse.mpr hsorted
  have hrevnd : List.Pairwise (fun i j => i ≠ j) (argsortStable xs).reverse :=
    List.nodup_reverse.mpr hnodup
  have hcomb := hrev.and hrevnd
  have hstrict : List.Pairwise
      (fun i j => xs.getD j 0 < xs.getD i 0 ∨ (xs.getD i 0 = xs.getD j 0 ∧ j < i))
      ((argsortStable xs).reverse) := by
    refine hcomb.imp ?_
    intro a b hab
    rcases hab with ⟨hlt | ⟨heq, hle⟩, hne⟩
    · exact Or.inl hlt
    · exact Or.inr ⟨heq.symm, lt_of_le_of_ne hle (fun hc => hne hc.symm)⟩
  exact hstrict.sublist (List.take_sublist 10 _)

/-! ## Concrete fixtures -/

/-- A concrete raw record. -/
def rowX : SowRow := ⟨100, 0, 0, "s", "b", "p", "c"⟩

/-- A one-record frame (days 100, no workers). -/
def dfA : PandasDF := ⟨[⟨100, 0, 0, "s", "b", "p", "c"⟩], none, none⟩

/-- A two-record frame over the same category values (days 200). -/
def dfB2 : PandasDF :=
  ⟨[⟨200, 0, 0, "s", "b", "p", "c"⟩, ⟨200, 0, 0, "s", "b", "p", "c"⟩], none, none⟩

/-- The engineer state after one `prepare_for_training` call on `dfA`. -/
noncomputable def stAfterFirst : FEState := (prepareForTraining fe0 [dfA] 0).2.1

/-- An engineer whose four encoders are already fitted. -/
def stFitted : FEState :=
  { labelEncoders := [("supplier", ["a"]), ("Business Unit", ["b"]),
                      ("Primary LOB", ["p"]), ("currency", ["c"])]
    scaler := none }

/-- A record with a supplier value `stFitted` never saw at fit time. -/
def rowUnseen : SowRow := ⟨10, 2, 5, "zzz", "b", "p", "c"⟩

/-- An 8-row label vector: all four classes, each with exactly 2 members. -/
def y8 : List CritLabel :=
  [.bajo, .bajo, .medio, .medio, .alto, .alto, .critico, .critico]

/-- A 16-row label vector: all four classes, each with 4 members. -/
def y16 : List CritLabel :=
  [.bajo, .bajo, .bajo, .bajo, .medio, .medio, .medio, .medio,
   .alto, .alto, .alto, .alto, .critico, .critico, .critico, .critico]

/-- A trained classifier whose instance also holds a fitted Feature Engineer. -/
def trainedClf : CriticalityClassifier :=
  { modelType := "random_forest"
    model := some { featureNamesIn := some featureCols, featureImportances := [1, 2] }
    featureEngineer := some stFitted
    trainingDate := some "2026-01-01 00:00:00"
    metrics := some { trainAccuracy := 1, testAccuracy := 1, trainSize := 12, testSize := 4 } }

/-! ## Claim theorems -/

/-- C1: for every integer `days_before_expiration` and non-negative
`active_sow_workers`, `classify` returns exactly one of the four labels,
deterministically, and agrees everywhere with the spec's §4.1 first-match-wins
rule table (`classifySpecRule`) — hence in particular at every boundary pair
with days among -1, 0, 30, 31, 60, 61, 90, 91 and workers among 0, 1, 6. -/
theorem classify_matches_spec_rules (days workers : Int) (_hw : 0 ≤ workers) :
    classify days workers = classifySpecRule days workers ∧
    (classify days workers = .bajo ∨ classify days workers = .medio ∨
     classify days workers = .alto ∨ classify days workers = .critico) := by
  refine ⟨rfl, ?_⟩
  unfold classify
  split_ifs <;> simp

/-- Witness for `classify_matches_spec_rules` at the boundary pair (30, 1). -/
theorem classify_matches_spec_rules_witness :
    (0 : Int) ≤ 1 ∧
    (classify 30 1 = classifySpecRule 30 1 ∧
     (classify 30 1 = .bajo ∨ classify 30 1 = .medio ∨
      classify 30 1 = .alto ∨ classify 30 1 = .critico)) :=
  ⟨by decide, classify_matches_spec_rules 30 1 (by decide)⟩

/-- C2: for every input record the derived `budget_per_worker` and
`risk_score` equal the spec's formulas, and at days_to_expire=28,
worker_count=25 the risk score is exactly `2 * (1 + ln 26)` (the value the
spec displays rounded as ≈ 8.52), so any implementation of the formula
matches it within any positive tolerance. -/
theorem derived_features_match_formulas :
    (∀ (row : SowRow) (se be pe ce : Nat),
       (mkFeatRow row se be pe ce).budgetPerWorker =
         budgetPerWorkerSpec row.latestMaximumBudget row.activeSowWorkers ∧
       (mkFeatRow row se be pe ce).riskScore =
         riskScoreSpec row.daysBeforeExpiration row.activeSowWorkers) ∧
    riskScore 28 25 = 2 * (1 + Real.log 26) := by
  constructor
  · intro row se be pe ce
    refine ⟨rfl, ?_⟩
    show riskScore row.daysBeforeExpiration row.activeSowWorkers =
      riskScoreSpec row.daysBeforeExpiration row.activeSowWorkers
    unfold riskScore riskScoreSpec hasWorkersInd log1p
    split_ifs <;> push_cast <;> ring
  · have h1 : hasWorkersInd 25 = 1 := by decide
    unfold riskScore log1p
    rw [h1]
    push_cast
    norm_num

/-- C3 (amended): the scaler statistics are not frozen at the first fit:
every successful `prepare_for_training` call refits the scaler
(`fit_transform`) on that call's own feature matrix, replacing the stored
state, and the transform path (`engineer_features`) never reads or writes the
scaler state at all. -/
theorem scaler_refit_every_prepare (st : FEState) (h : Heap) (r : Nat)
    (hok : (prepareForTraining st h r).1.isOk = true) :
    (prepareForTraining st h r).2.1.scaler = some (scalerFit (prepRawX st h r)) ∧
    ∀ rows : List SowRow, (engineerFeatures st rows).2.scaler = st.scaler :=
  ⟨prep_scaler_refit st h r hok, fun rows => engineerFeatures_scaler st rows⟩

/-- Witness for `scaler_refit_every_prepare` on the fresh engineer and the
one-frame heap `[dfA]`. -/
theorem scaler_refit_every_prepare_witness :
    (prepareForTraining fe0 [dfA] 0).1.isOk = true ∧
    ((prepareForTraining fe0 [dfA] 0).2.1.scaler =
        some (scalerFit (prepRawX fe0 [dfA] 0)) ∧
      ∀ rows : List SowRow, (engineerFeatures fe0 rows).2.scaler = fe0.scaler) :=
  ⟨rfl, scaler_refit_every_prepare fe0 [dfA] 0 rfl⟩

/-- C3 counterexample: running `prepare_for_training` a second time through
the same instance replaces the fitted scaler state — here the second call's
statistics are fitted over 2 samples, the first call's over 1, so the stored
per-column constants are not reused unchanged. -/
theorem scaler_reused_counterexample :
    (prepareForTraining stAfterFirst [dfB2] 0).2.1.scaler ≠
      (prepareForTraining fe0 [dfA] 0).2.1.scaler := by
  intro hEq
  have hmap := congrArg (Option.map (fun s : ScalerStats => s.nSamples)) hEq
  have e1 : Option.map (fun s : ScalerStats => s.nSamples)
      ((prepareForTraining stAfterFirst [dfB2] 0).2.1.scaler) = some 2 := rfl
  have e2 : Option.map (fun s : ScalerStats => s.nSamples)
      ((prepareForTraining fe0 [dfA] 0).2.1.scaler) = some 1 := rfl
  rw [e1, e2] at hmap
  exact absurd hmap (by decide)

/-- C4 (amended): calling the transform path (`engineer_features`) on a
never-fitted instance raises no unfitted-state error for any record set:
the four encoders are silently fitted on the given records
(`fit_transform` branch of the per-column loop) and the call completes. -/
theorem transform_before_fit_autofits (rows : List SowRow) :
    (engineerFeatures fe0 rows).1.isOk = true ∧
    (engineerFeatures fe0 rows).2 =
      { labelEncoders :=
          [("supplier", leClasses (rows.map (fun r => r.supplier))),
           ("Business Unit", leClasses (rows.map (fun r => r.businessUnit))),
           ("Primary LOB", leClasses (rows.map (fun r => r.primaryLob))),
           ("currency", leClasses (rows.map (fun r => r.currency)))]
        scaler := none } :=
  ⟨rfl, rfl⟩

/-- C4 counterexample: on a fresh (never-fitted) engineer, `engineer_features`
on a concrete record succeeds — and implicitly fits all four encoders —
instead of failing with a distinguishable unfitted-state error; no such error
exists in the code. -/
theorem transform_before_fit_counterexample :
    (engineerFeatures fe0 [rowX]).1.isOk = true ∧
    (engineerFeatures fe0 [rowX]).2.labelEncoders =
      [("supplier", ["s"]), ("Business Unit", ["b"]),
       ("Primary LOB", ["p"]), ("currency", ["c"])] :=
  ⟨rfl, rfl⟩

/-- C5 (amended): with all four categorical encoders fitted, the transform
path completes exactly when every categorical value (supplier, Business Unit,
Primary LOB, currency) of every record was observed at fit time; any unseen
value makes `LabelEncoder.transform` raise its `ValueError` (a hard failure) —
no reserved "unknown" code exists. -/
theorem unseen_category_hard_failure (encS encB encP encC : List String)
    (sc : Option ScalerStats) (rows : List SowRow) :
    (engineerFeatures
        { labelEncoders := [("supplier", encS), ("Business Unit", encB),
                            ("Primary LOB", encP), ("currency", encC)]
          scaler := sc } rows).1.isOk = true ↔
      ((∀ row ∈ rows, row.supplier ∈ encS) ∧ (∀ row ∈ rows, row.businessUnit ∈ encB) ∧
       (∀ row ∈ rows, row.primaryLob ∈ encP) ∧ (∀ row ∈ rows, row.currency ∈ encC)) := by
  have key : ∀ (cl : String) (cs : List String) (f : SowRow → String),
      ((transformCol cl cs (rows.map f)).isOk = true ↔ ∀ row ∈ rows, f row ∈ cs) := by
    intro cl cs f
    rw [transformCol_ok_iff]
    simp
  have hl1 : lookupEncoder [("supplier", encS), ("Business Unit", encB),
      ("Primary LOB", encP), ("currency", encC)] "supplier" = some encS := rfl
  have hl2 : lookupEncoder [("supplier", encS), ("Business Unit", encB),
      ("Primary LOB", encP), ("currency", encC)] "Business Unit" = some encB := rfl
  have hl3 : lookupEncoder [("supplier", encS), ("Business Unit", encB),
      ("Primary LOB", encP), ("currency", encC)] "Primary LOB" = some encP := rfl
  have hl4 : lookupEncoder [("supplier", encS), ("Business Unit", encB),
      ("Primary LOB", encP), ("currency", encC)] "currency" = some encC := rfl
  unfold engineerFeatures encodeCol
  dsimp only
  rw [hl1]
  dsimp only
  rcases h1 : transformCol "supplier" encS (rows.map fun r => r.supplier) with e1 | c1
  · rw [h1]
    dsimp only
    simp only [exceptIsOk_error, Bool.false_eq_true, false_iff]
    intro hall
    have h := (key "supplier" encS (fun r => r.supplier)).mpr hall.1
    rw [h1] at h
    simp [exceptIsOk_error] at h
  · rw [h1]
    dsimp only
    rw [hl2]
    dsimp only
    rcases h2 : transformCol "Business Unit" encB (rows.map fun r => r.businessUnit) with e2 | c2
    · rw [h2]
      dsimp only
      simp only [exceptIsOk_error, Bool.false_eq_true, false_iff]
      intro hall
      have h := (key "Business Unit" encB (fun r => r.businessUnit)).mpr hall.2.1
      rw [h2] at h
      simp [exceptIsOk_error] at h
    · rw [h2]
      dsimp only
      rw [hl3]
      dsimp only
      rcases h3 : transformCol "Primary LOB" encP (rows.map fun r => r.primaryLob) with e3 | c3
      · rw [h3]
        dsimp only
        simp only [exceptIsOk_error, Bool.false_eq_true, false_iff]
        intro hall
        have h := (key "Primary LOB" encP (fun r => r.primaryLob)).mpr hall.2.2.1
        rw [h3] at h
        simp [exceptIsOk_error] at h
      · rw [h3]
        dsimp only
        rw [hl4]
        dsimp only
        rcases h4 : transformCol "currency" encC (rows.map fun r => r.currency) with e4 | c4
        · rw [h4]
          dsimp only
          simp only [exceptIsOk_error, Bool.false_eq_true, false_iff]
          intro hall
          have h := (key "currency" encC (fun r => r.currency)).mpr hall.2.2.2
          rw [h4] at h
          simp [exceptIsOk_error] at h
        · rw [h4]
          dsimp only
          simp only [exceptIsOk_ok, true_iff]
          refine ⟨(key "supplier" encS (fun r => r.supplier)).mp (by rw [h1]; rfl),
                  (key "Business Unit" encB (fun r => r.businessUnit)).mp (by rw [h2]; rfl),
                  (key "Primary LOB" encP (fun r => r.primaryLob)).mp (by rw [h3]; rfl),
                  (key "currency" encC (fun r => r.currency)).mp (by rw [h4]; rfl)⟩

/-- C5 counterexample: transforming a record whose supplier value "zzz" was
not observed at fit time raises the unseen-label error instead of mapping it
to a reserved "unknown" code. -/
theorem unseen_category_counterexample :
    (engineerFeatures stFitted [rowUnseen]).1 =
      .error (.unseenLabel "supplier" "zzz") := rfl

/-- C6 (amended): the stratified split's validation raises
`leastPopulatedClass` exactly as the claim says whenever some class has fewer
than 2 members, and otherwise succeeds if and only if both the train count
(floor of 0.8 n) and the test count (ceil of 0.2 n) are at least the number
of classes; so a 4-class dataset with every class at least 2 can still fail
when the test count is under 4, and it never silently degrades to a
non-stratified split. -/
theorem stratified_split_check_characterization (y : List CritLabel) :
    (stratifiedSplitCheck y = .ok () ↔
      ((∀ c ∈ y.dedup, 2 ≤ y.count c) ∧
        y.dedup.length ≤ splitTrainCount y.length ∧
        y.dedup.length ≤ splitTestCount y.length)) ∧
    ((∃ c ∈ y.dedup, y.count c < 2) →
      stratifiedSplitCheck y = .error .leastPopulatedClass) := by
  unfold stratifiedSplitCheck
  dsimp only
  by_cases h1 : y.dedup.any (fun c => y.count c < 2)
  · rw [if_pos h1]
    simp only [List.any_eq_true, decide_eq_true_eq] at h1
    obtain ⟨c, hc, hlt⟩ := h1
    constructor
    · constructor
      · intro hcontra
        exact absurd hcontra (by simp)
      · rintro ⟨hall, -, -⟩
        exact absurd (hall c hc) (by omega)
    · intro _
      rfl
  · rw [if_neg h1]
    simp only [List.any_eq_true, decide_eq_true_eq, not_exists, not_and] at h1
    push_neg at h1
    have hall : ∀ c ∈ y.dedup, 2 ≤ y.count c := fun c hc => by
      have := h1 c hc
      omega
    by_cases h2 : splitTrainCount y.length < y.dedup.length
    · rw [if_pos h2]
      constructor
      · constructor
        · intro hcontra
          exact absurd hcontra (by simp)
        · rintro ⟨-, hle, -⟩
          omega
      · rintro ⟨c, hc, hlt⟩
        exact absurd (hall c hc) (by omega)
    · rw [if_neg h2]
      by_cases h3 : splitTestCount y.length < y.dedup.length
      · rw [if_pos h3]
        constructor
        · constructor
          · intro hcontra
            exact absurd hcontra (by simp)
          · rintro ⟨-, -, hle⟩
            omega
        · rintro ⟨c, hc, hlt⟩
          exact absurd (hall c hc) (by omega)
      · rw [if_neg h3]
        constructor
        · constructor
          · intro _
            exact ⟨hall, by omega, by omega⟩
          · intro _
            rfl
        · rintro ⟨c, hc, hlt⟩
          exact absurd (hall c hc) (by omega)

/-- Witness for `stratified_split_check_characterization`: on the 16-row,
4-class vector `y16` (test count 4, train count 12) the check succeeds. -/
theorem stratified_split_characterization_witness :
    stratifiedSplitCheck y16 = .ok () :=
  (stratified_split_check_characterization y16).1.mpr (by decide)

/-- C6 counterexample: on the 8-row vector `y8` every one of the 4 classes
has exactly 2 members, yet the stratified split raises (the test count
ceil(0.2 x 8) = 2 is smaller than the 4 classes), contradicting "never fails
for a 4-class dataset in which every class has at least 2 members". -/
theorem stratified_split_counterexample :
    (∀ c ∈ y8.dedup, 2 ≤ y8.count c) ∧
    y8.dedup.length = 4 ∧
    stratifiedSplitCheck y8 = .error .testSizeTooSmall :=
  ⟨by decide, by decide, rfl⟩

/-- C7 (amended): `save_model` performs no trained-state check: on a trainer
whose model is still `None` (UNTRAINED) it succeeds and persists a package
whose `model` and `feature_names` entries are `None`. -/
theorem save_untrained_persists (c : CriticalityClassifier) (hc : c.model = none) :
    saveModel c = .ok { model := none, modelType := c.modelType,
                        trainingDate := c.trainingDate, metrics := c.metrics,
                        featureNames := none } := by
  unfold saveModel
  rw [hc]

/-- Witness for `save_untrained_persists` on a concrete untrained trainer. -/
theorem save_untrained_persists_witness :
    (⟨"gradient_boosting", none, none, some "2025-01-01", none⟩ :
        CriticalityClassifier).model = none ∧
    saveModel ⟨"gradient_boosting", none, none, some "2025-01-01", none⟩ =
      .ok { model := none, modelType := "gradient_boosting",
            trainingDate := some "2025-01-01", metrics := none,
            featureNames := none } :=
  ⟨rfl, save_untrained_persists _ rfl⟩

/-- C7 counterexample: `save_model` on a freshly constructed (UNTRAINED)
trainer succeeds and produces an artifact with `model = None`, instead of
failing. -/
theorem save_untrained_counterexample :
    saveModel ⟨"random_forest", none, none, none, none⟩ =
      .ok ⟨none, "random_forest", none, none, none⟩ := rfl

/-- C8 (amended): the persisted package bundles the fitted classifier,
`model_type`, `training_date`, `metrics` and `feature_names` — but not the
fitted Feature Engineer, which the pipeline dumps as a separate sibling file.
When the package carries metrics (any artifact saved after training),
`load_model` restores every package entry onto a fresh trainer whose
`feature_engineer` stays `None`; when the metrics dict is empty (an artifact
saved untrained), line 179's `metrics['test_accuracy']` raises `KeyError`
and no trainer is reconstructed. -/
theorem save_load_roundtrip (c : CriticalityClassifier) :
    (c.metrics ≠ none →
      Except.map loadModel (saveModel c) =
        .ok (.ok { modelType := c.modelType, model := c.model,
                   featureEngineer := none, trainingDate := c.trainingDate,
                   metrics := c.metrics })) ∧
    (c.metrics = none →
      Except.map loadModel (saveModel c) =
        .ok (.error (.keyError "test_accuracy"))) := by
  constructor
  · intro hne
    rcases hm : c.metrics with _ | m
    · exact absurd hm hne
    · unfold saveModel loadModel
      rw [hm]
      rfl
  · intro hm
    unfold saveModel loadModel
    rw [hm]
    rfl

/-- Witness for `save_load_roundtrip` on the concrete trained classifier
`trainedClf` (whose metrics are present). -/
theorem save_load_roundtrip_witness :
    trainedClf.metrics ≠ none ∧
    Except.map loadModel (saveModel trainedClf) =
      .ok (.ok { modelType := trainedClf.modelType, model := trainedClf.model,
                 featureEngineer := none, trainingDate := trainedClf.trainingDate,
                 metrics := trainedClf.metrics }) :=
  ⟨fun h => Option.noConfusion h,
   (save_load_roundtrip trainedClf).1 (fun h => Option.noConfusion h)⟩

/-- C8 counterexample: saving a trained classifier whose instance holds a
fitted Feature Engineer and loading the artifact back yields a trainer with
no feature engineer: the single artifact did not bundle it. -/
theorem artifact_omits_feature_engineer :
    trainedClf.featureEngineer = some stFitted ∧
    Except.map (fun p => Except.map (fun c => c.featureEngineer) (loadModel p))
        (saveModel trainedClf) =
      .ok (.ok none) := ⟨rfl, rfl⟩

/-- C9 (amended): the importance display order (reverse of a stable ascending
argsort, truncated to the call's top_n = 10) is strictly descending by score,
and features with equal scores appear in reversed original order — the later
feature index first, not the earlier one. -/
theorem feature_importance_ranking_order (names : List String) (xs : List ℚ) :
    List.Pairwise
      (fun i j => xs.getD j 0 < xs.getD i 0 ∨ (xs.getD i 0 = xs.getD j 0 ∧ j < i))
      (importanceOrder xs) ∧
    List.Pairwise (fun p q : String × ℚ => q.2 ≤ p.2)
      (featureImportanceRanking names xs) := by
  refine ⟨importanceOrder_pairwise xs, ?_⟩
  unfold featureImportanceRanking
  rw [List.pairwise_map]
  refine (importanceOrder_pairwise xs).imp ?_
  intro a b hab
  rcases hab with hlt | ⟨heq, _⟩
  · exact le_of_lt hlt
  · exact heq.symm.le

/-- C9 counterexample: two features with equal importance are displayed with
the later original index first — [("f1", 1), ("f0", 1)] — not in original
feature order as the claim requires. -/
theorem feature_importance_tie_counterexample :
    featureImportanceRanking ["f0", "f1"] [1, 1] = [("f1", 1), ("f0", 1)] ∧
    featureImportanceRanking ["f0", "f1"] [1, 1] ≠ [("f0", 1), ("f1", 1)] := by
  constructor <;> decide

/-- C10: `create_criticality_label` writes the 'Criticality' column into the
caller's frame object in place and returns the same reference (so
`prepare_for_training` also mutates its argument frame), while
`engineer_features` first copies the frame: it allocates a fresh slot,
leaves every pre-existing heap slot (including the caller's frame and all its
columns) unchanged, and returns the fresh reference. -/
theorem frame_mutation_effects (st : FEState) (h : Heap) (r : Nat) (hr : r < heapLen h) :
    ((createCriticalityLabel h r).2 = r ∧
     heapGet (createCriticalityLabel h r).1 r =
       { heapGet h r with
           criticality := some ((heapGet h r).rows.map rowClassify) } ∧
     (∀ j, j ≠ r → heapGet (createCriticalityLabel h r).1 j = heapGet h j)) ∧
    ((engineerFeaturesRef st h r).2.2.take (heapLen h) = h ∧
     (∀ r2, (engineerFeaturesRef st h r).1 = .ok r2 → r2 = heapLen h)) ∧
    (heapGet (prepareForTraining st h r).2.2 r).criticality =
      some ((heapGet h r).rows.map rowClassify) := by
  refine ⟨⟨rfl, ?_, ?_⟩, ⟨?_, ?_⟩, ?_⟩
  · unfold createCriticalityLabel
    dsimp only
    exact heapGet_set_self h r _ hr
  · intro j hj
    unfold createCriticalityLabel
    dsimp only
    exact heapGet_set_ne h r _ j hj
  · unfold engineerFeaturesRef
    dsimp only
    rcases hE : engineerFeatures st (heapGet h r).rows with ⟨E, st'⟩
    cases E with
    | error e => exact List.take_length h
    | ok fr => exact List.take_left h _
  · intro r2 hok
    unfold engineerFeaturesRef at hok
    dsimp only at hok
    rcases hE : engineerFeatures st (heapGet h r).rows with ⟨E, st'⟩
    rw [hE] at hok
    cases E with
    | error e =>
      have hok' : Except.error e = Except.ok r2 := hok
      exact Except.noConfusion hok'
    | ok fr =>
      have hok' : Except.ok (heapLen h) = Except.ok r2 := hok
      injection hok' with h5
      exact h5.symm
  · have hrows := createCriticalityLabel_rows h r
    have hlen : heapLen (createCriticalityLabel h r).1 = heapLen h := by
      unfold createCriticalityLabel heapLen
      dsimp only
      exact List.length_set h r _
    rcases hE : engineerFeatures st
        (heapGet (createCriticalityLabel h r).1 (createCriticalityLabel h r).2).rows
      with ⟨E, st'⟩
    have hset : heapGet (createCriticalityLabel h r).1 r =
        { heapGet h r with
            criticality := some ((heapGet h r).rows.map rowClassify) } := by
      unfold createCriticalityLabel
      dsimp only
      exact heapGet_set_self h r _ hr
    unfold prepareForTraining engineerFeaturesRef
    dsimp only
    rw [hE]
    cases E with
    | error e =>
      dsimp only
      rw [hset]
    | ok fr =>
      dsimp only
      have hr' : r < heapLen (createCriticalityLabel h r).1 := by rw [hlen]; exact hr
      rw [heapGet_append_left _ _ r hr']
      rw [hset]

/-- Witness for `frame_mutation_effects` on the one-frame heap `[dfA]`. -/
theorem frame_mutation_effects_witness :
    0 < heapLen [dfA] ∧
    (((createCriticalityLabel [dfA] 0).2 = 0 ∧
      heapGet (createCriticalityLabel [dfA] 0).1 0 =
        { heapGet [dfA] 0 with
            criticality := some ((heapGet [dfA] 0).rows.map rowClassify) } ∧
      (∀ j, j ≠ 0 → heapGet (createCriticalityLabel [dfA] 0).1 j = heapGet [dfA] j)) ∧
     ((engineerFeaturesRef fe0 [dfA] 0).2.2.take (heapLen [dfA]) = [dfA] ∧
      (∀ r2, (engineerFeaturesRef fe0 [dfA] 0).1 = .ok r2 → r2 = heapLen [dfA])) ∧
     (heapGet (prepareForTraining fe0 [dfA] 0).2.2 0).criticality =
       some ((heapGet [dfA] 0).rows.map rowClassify)) :=
  ⟨by decide, frame_mutation_effects fe0 [dfA] 0 (by decide)⟩

/-- `splitTestCount` equals the exact-arithmetic `ceil(0.2 * n)` that
`_validate_shuffle_split` computes for `test_size=0.2`. -/
theorem splitTestCount_eq_ceil (n : Nat) : splitTestCount n = Nat.ceil ((n : ℚ) / 5) := by
  symm
  unfold splitTestCount
  apply le_antisymm
  · rw [Nat.ceil_le]
    rw [div_le_iff₀ (by norm_num)]
    have hn : n ≤ 5 * ((n + 4) / 5) := by omega
    calc ((n : ℚ)) ≤ 5 * ((n + 4) / 5 : ℕ) := by exact_mod_cast hn
    _ = ((n + 4) / 5 : ℕ) * 5 := by ring
  · have hc := Nat.le_ceil ((n : ℚ) / 5)
    rw [div_le_iff₀ (by norm_num)] at hc
    have h2 : (n : ℚ) ≤ (Nat.ceil ((n : ℚ) / 5) : ℚ) * 5 := hc
    have h3 : n ≤ Nat.ceil ((n : ℚ) / 5) * 5 := by exact_mod_cast h2
    omega

/-- `splitTrainCount` equals the exact-arithmetic `floor(0.8 * n)` that
`_validate_shuffle_split` computes for `train_size = 1 - 0.2`. -/
theorem splitTrainCount_eq_floor (n : Nat) :
    splitTrainCount n = Nat.floor ((4 * n : ℚ) / 5) := by
  symm
  unfold splitTrainCount
  have h := Nat.floor_div_nat ((4 * n : ℕ) : ℚ) 5
  rw [Nat.floor_natCast] at h
  rw [← h]
  norm_num
